import Mathlib

/-!
# LichtFeld Studio: the process entry point `main` (src/main.cpp)

A shallow embedding of `main` and of the immediately-invoked lambda
`request_nvidia_gl`.  The program is a straight-line sequence of calls into the
C library (`getenv`, `setenv`, `println`), the CUDA caching allocator, the
argument parser, the logger and the application controller.  The embedding
threads an explicit `World` (the process environment plus the trace of external
calls made so far) through that sequence.
-/

namespace LichtFeld

/-! ## The process environment -/

/-- The process environment (`environ`): the entries in order, each a name and a value. -/
abbrev Env := List (String × String)

/-- The C library's `getenv`: the value of the first entry called `name`, or `none`
for the null pointer. -/
def getenv : Env → String → Option String
  | [], _ => none
  | (k, v) :: rest, name => if k = name then some v else getenv rest name

/-- The C library's `setenv(name, value, overwrite)` when it succeeds: an existing
entry is rewritten in place when `overwrite` is non-zero and kept otherwise; a
missing entry is appended. -/
def setenv : Env → String → String → Int → Env
  | [], name, value, _ => [(name, value)]
  | (k, v) :: rest, name, value, overwrite =>
    if k = name then
      (if overwrite ≠ 0 then (k, value) :: rest else (k, v) :: rest)
    else (k, v) :: setenv rest name value overwrite

/-- The test `!p || std::string(p) != target` on a possibly-null C string. -/
def nullOrDiffers (p : Option String) (target : String) : Bool :=
  match p with
  | none => true
  | some s => decide (s ≠ target)

/-- The test `p && std::string(p) == target` on a possibly-null C string. -/
def nonNullAndEquals (p : Option String) (target : String) : Bool :=
  match p with
  | none => false
  | some s => decide (s = target)

/-! ## External calls -/

/-- One call that `main` makes into a collaborator or library, with its arguments. -/
inductive Event (Params : Type) where
  | getenv (name : String)
  | setenv (name value : String) (overwrite : Int)
  | setAllocatorSettings (settings : String)
  | parse_args_and_params (argc : Nat) (argv : List String)
  | LOG_ERROR (fmt : String) (args : List String)
  | println_stderr (fmt : String) (args : List String)
  | LOG_INFO (fmt : String) (args : List String)
  | run (params : Params)
  deriving DecidableEq, Repr

/-- The state threaded through `main`: the environment and the calls made so far,
oldest first. -/
structure World (Params : Type) where
  env : Env
  trace : List (Event Params)
  deriving DecidableEq, Repr

variable {Params : Type}

/-- Record one external call at the end of the trace. -/
def World.emit (w : World Params) (e : Event Params) : World Params :=
  { w with trace := w.trace ++ [e] }

/-- Call `std::getenv(name)`: the value read, and the world with the call recorded. -/
def World.getenv (w : World Params) (name : String) : Option String × World Params :=
  (LichtFeld.getenv w.env name, w.emit (Event.getenv name))

/-- Call `setenv(name, value, overwrite)`: the environment is updated and the call
recorded. -/
def World.setenv (w : World Params) (name value : String) (overwrite : Int) : World Params :=
  { env := LichtFeld.setenv w.env name value overwrite,
    trace := w.trace ++ [Event.setenv name value overwrite] }

/-- The collaborators declared in `core/argument_parser.hpp` and `core/application.hpp`,
taken as parameters: the parser yields the parsed parameters or an error message and
may leave the environment changed; the controller's `run` yields the exit status. -/
structure Collaborators (Params : Type) where
  parse_args_and_params : Nat → List String → Env → Except String Params × Env
  run : Params → Env → Int

/-! ## The program -/

/-- The lambda `request_nvidia_gl` of `main`, invoked where it is defined: both
variables are read first, then each is set when it is missing or differs from its
target. Returns the `changed` flag and the resulting world. -/
def request_nvidia_gl (w : World Params) : Bool × World Params :=
  let changed := false
  let (offload, w) := w.getenv "__NV_PRIME_RENDER_OFFLOAD"
  let (vendor, w) := w.getenv "__GLX_VENDOR_LIBRARY_NAME"
  let (changed, w) :=
    if nullOrDiffers offload "1" then
      (true, w.setenv "__NV_PRIME_RENDER_OFFLOAD" "1" 1)
    else (changed, w)
  let (changed, w) :=
    if nullOrDiffers vendor "nvidia" then
      (true, w.setenv "__GLX_VENDOR_LIBRARY_NAME" "nvidia" 1)
    else (changed, w)
  (changed, w)

/-- The format string of the informational record written after logger start-up. -/
def offloadMessage : String :=
  "Requested NVIDIA OpenGL via PRIME offload (__GLX_VENDOR_LIBRARY_NAME=nvidia)"

/-- The block "Informative log after logger init" of `main`. -/
def postInitLog (w : World Params) : World Params :=
  let (offload, w) := w.getenv "__NV_PRIME_RENDER_OFFLOAD"
  let (vendor, w) := w.getenv "__GLX_VENDOR_LIBRARY_NAME"
  if nonNullAndEquals offload "1" && nonNullAndEquals vendor "nvidia" then
    w.emit (Event.LOG_INFO offloadMessage [])
  else w

/-- What `main` leaves behind: its return value and the final world. -/
structure MainResult (Params : Type) where
  ret : Int
  world : World Params

/-- The part of `main` that runs before the parser is called: the environment
selector and the allocator configuration, both compiled only when `_WIN32` is not
defined. -/
def preParse (win32 : Bool) (env0 : Env) : World Params :=
  let w : World Params := { env := env0, trace := [] }
  let w := if win32 then w else (request_nvidia_gl w).2
  let w := if win32 then w else
    w.emit (Event.setAllocatorSettings "expandable_segments:True")
  w

/-- The function `main`. `win32` says whether `_WIN32` is defined, `c` holds the
parser and the application controller, `argv` the arguments and `env0` the
environment the process starts with. -/
def main (win32 : Bool) (c : Collaborators Params) (argv : List String) (env0 : Env) :
    MainResult Params :=
  let w : World Params := preParse win32 env0
  let argc := argv.length
  let (params_result, envAfterParse) := c.parse_args_and_params argc argv w.env
  let w : World Params :=
    { env := envAfterParse, trace := w.trace ++ [Event.parse_args_and_params argc argv] }
  match params_result with
  | Except.error e =>
    let w := w.emit (Event.LOG_ERROR "Failed to parse arguments: \x7b\x7d" [e])
    let w := w.emit (Event.println_stderr "Error: \x7b\x7d" [e])
    { ret := -1, world := w }
  | Except.ok parsed =>
    let w := if win32 then w else postInitLog w
    let w := w.emit (Event.LOG_INFO "========================================" [])
    let w := w.emit (Event.LOG_INFO "LichtFeld Studio" [])
    let w := w.emit (Event.LOG_INFO "========================================" [])
    let params := parsed
    let r := c.run params w.env
    { ret := r, world := w.emit (Event.run params) }

/-! ## Rendering of log records and of the standard error stream -/

/-- Modelled from the spec: the formatting behind `LOG_ERROR`, `LOG_INFO` (macros of
`core/logger.hpp`, not part of this file) and `std::println`, which each accept "a
format string plus positional arguments": every placeholder (an opening brace
directly followed by a closing brace) is replaced by the next argument, copied as
it is; all other characters are copied. -/
def formatChars : List Char → List String → List Char
  | [], _ => []
  | [c], _ => [c]
  | c :: d :: rest, args =>
    if c = Char.ofNat 123 ∧ d = Char.ofNat 125 then
      match args with
      | a :: args' => a.data ++ formatChars rest args'
      | [] => c :: formatChars (d :: rest) args
    else c :: formatChars (d :: rest) args

/-- The text of a record: the format string with its arguments filled in. -/
def format (fmt : String) (args : List String) : String :=
  String.mk (formatChars fmt.data args)

/-- The texts handed to the structured logger at error level, oldest first. -/
def errorLog : List (Event Params) → List String
  | [] => []
  | Event.LOG_ERROR fmt args :: t => format fmt args :: errorLog t
  | _ :: t => errorLog t

/-- The texts handed to the structured logger at info level, oldest first. -/
def infoLog : List (Event Params) → List String
  | [] => []
  | Event.LOG_INFO fmt args :: t => format fmt args :: infoLog t
  | _ :: t => infoLog t

/-- The writes made to the standard error stream, oldest first: `std::println`
writes the formatted text followed by a newline. -/
def stderrWrites : List (Event Params) → List String
  | [] => []
  | Event.println_stderr fmt args :: t => (format fmt args ++ "\n") :: stderrWrites t
  | _ :: t => stderrWrites t

/-- The number of lines in a text written to a stream: its newline characters. -/
def lineCount (s : String) : Nat :=
  s.data.count (Char.ofNat 10)

/-- The `setenv` calls of a trace, as (name, value, overwrite), oldest first. -/
def setenvCalls : List (Event Params) → List (String × String × Int)
  | [] => []
  | Event.setenv name value overwrite :: t => (name, value, overwrite) :: setenvCalls t
  | _ :: t => setenvCalls t

/-- The policy strings passed to `setAllocatorSettings`, oldest first. -/
def allocatorCalls : List (Event Params) → List String
  | [] => []
  | Event.setAllocatorSettings s :: t => s :: allocatorCalls t
  | _ :: t => allocatorCalls t

/-- The parameters passed to the application controller's `run`, oldest first. -/
def runCalls : List (Event Params) → List Params
  | [] => []
  | Event.run p :: t => p :: runCalls t
  | _ :: t => runCalls t

/-- The argument lists the parser was called with, oldest first. -/
def parseCalls : List (Event Params) → List (Nat × List String)
  | [] => []
  | Event.parse_args_and_params argc argv :: t => (argc, argv) :: parseCalls t
  | _ :: t => parseCalls t

/-- The text of the informational record about the render offload. -/
def offloadRecord : String := format offloadMessage []

/-! ## Stub collaborators, for evaluating `main` on concrete inputs -/

/-- A stand-in for the parameter aggregate, with the two fields of the spec's
example scenario. -/
structure SampleParameters where
  scene_path : String
  iterations : Nat
  deriving DecidableEq, Repr

/-- A parser that succeeds with `p` and leaves the environment alone, and a
controller whose `run` returns `r`. -/
def stubSuccess (p : SampleParameters) (r : Int) : Collaborators SampleParameters :=
  { parse_args_and_params := fun _ _ env => (Except.ok p, env),
    run := fun _ _ => r }

/-- A parser that fails with message `m` and leaves the environment alone. -/
def stubFailure (m : String) : Collaborators SampleParameters :=
  { parse_args_and_params := fun _ _ env => (Except.error m, env),
    run := fun _ _ => 0 }

/-- A parser that succeeds with `p` and hands back the environment `env1` whatever
it was given, and a controller whose `run` returns `r`. -/
def stubReplacingEnv (p : SampleParameters) (env1 : Env) (r : Int) :
    Collaborators SampleParameters :=
  { parse_args_and_params := fun _ _ _ => (Except.ok p, env1),
    run := fun _ _ => r }

/-- The parameters of the spec's example scenario. -/
def sampleParams : SampleParameters := { scene_path := "foo", iterations := 100 }

/-! ## Facts about the environment and the rendering -/

theorem getenv_setenv_same (env : Env) (name value : String) (o : Int) (ho : o ≠ 0) :
    getenv (setenv env name value o) name = some value := by
  induction env with
  | nil => simp [setenv, getenv]
  | cons kv rest ih =>
    obtain ⟨k, v⟩ := kv
    by_cases h : k = name <;> simp [setenv, getenv, h, ho, ih]

theorem getenv_setenv_other (env : Env) (name value other : String) (o : Int)
    (hne : other ≠ name) :
    getenv (setenv env name value o) other = getenv env other := by
  induction env with
  | nil => simp [setenv, getenv, Ne.symm hne]
  | cons kv rest ih =>
    obtain ⟨k, v⟩ := kv
    by_cases h : k = name
    · subst h
      by_cases ho : o = 0 <;> simp [setenv, getenv, ho, Ne.symm hne]
    · by_cases h2 : k = other
      · subst h2
        simp [setenv, getenv, h]
      · simp [setenv, getenv, h, h2, ih]

theorem setenv_eq_self_iff (env : Env) (name value : String) (o : Int) (ho : o ≠ 0) :
    setenv env name value o = env ↔ getenv env name = some value := by
  induction env with
  | nil => simp [setenv, getenv]
  | cons kv rest ih =>
    obtain ⟨k, v⟩ := kv
    by_cases h : k = name
    · simp [setenv, getenv, h, ho]
      exact eq_comm
    · simp [setenv, getenv, h, ih]

theorem nullOrDiffers_eq_false_iff (p : Option String) (target : String) :
    nullOrDiffers p target = false ↔ p = some target := by
  cases p <;> simp [nullOrDiffers]

theorem nullOrDiffers_eq_true_iff (p : Option String) (target : String) :
    nullOrDiffers p target = true ↔ p ≠ some target := by
  cases p <;> simp [nullOrDiffers]

theorem nonNullAndEquals_eq_true_iff (p : Option String) (target : String) :
    nonNullAndEquals p target = true ↔ p = some target := by
  cases p <;> simp [nonNullAndEquals]

theorem lineCount_append (s t : String) : lineCount (s ++ t) = lineCount s + lineCount t := by
  simp [lineCount]

theorem format_error_record (M : String) :
    format "Failed to parse arguments: \x7b\x7d" [M] = "Failed to parse arguments: " ++ M := by
  apply String.ext
  simp [format, formatChars]

theorem format_stderr_record (M : String) :
    format "Error: \x7b\x7d" [M] = "Error: " ++ M := by
  apply String.ext
  simp [format, formatChars]

theorem errorLog_append (s t : List (Event Params)) :
    errorLog (s ++ t) = errorLog s ++ errorLog t := by
  induction s with
  | nil => rfl
  | cons e s ih => cases e <;> simp [errorLog, ih]

theorem infoLog_append (s t : List (Event Params)) :
    infoLog (s ++ t) = infoLog s ++ infoLog t := by
  induction s with
  | nil => rfl
  | cons e s ih => cases e <;> simp [infoLog, ih]

theorem stderrWrites_append (s t : List (Event Params)) :
    stderrWrites (s ++ t) = stderrWrites s ++ stderrWrites t := by
  induction s with
  | nil => rfl
  | cons e s ih => cases e <;> simp [stderrWrites, ih]

theorem setenvCalls_append (s t : List (Event Params)) :
    setenvCalls (s ++ t) = setenvCalls s ++ setenvCalls t := by
  induction s with
  | nil => rfl
  | cons e s ih => cases e <;> simp [setenvCalls, ih]

theorem allocatorCalls_append (s t : List (Event Params)) :
    allocatorCalls (s ++ t) = allocatorCalls s ++ allocatorCalls t := by
  induction s with
  | nil => rfl
  | cons e s ih => cases e <;> simp [allocatorCalls, ih]

theorem parseCalls_append (s t : List (Event Params)) :
    parseCalls (s ++ t) = parseCalls s ++ parseCalls t := by
  induction s with
  | nil => rfl
  | cons e s ih => cases e <;> simp [parseCalls, ih]

theorem runCalls_append (s t : List (Event Params)) :
    runCalls (s ++ t) = runCalls s ++ runCalls t := by
  induction s with
  | nil => rfl
  | cons e s ih => cases e <;> simp [runCalls, ih]

/-! ## The selector, step by step -/

theorem request_nvidia_gl_changed (w : World Params) :
    (request_nvidia_gl w).1 =
      (nullOrDiffers (getenv w.env "__NV_PRIME_RENDER_OFFLOAD") "1" ||
        nullOrDiffers (getenv w.env "__GLX_VENDOR_LIBRARY_NAME") "nvidia") := by
  simp only [request_nvidia_gl, World.getenv, World.emit, World.setenv]
  cases nullOrDiffers (getenv w.env "__NV_PRIME_RENDER_OFFLOAD") "1" <;>
    cases nullOrDiffers (getenv w.env "__GLX_VENDOR_LIBRARY_NAME") "nvidia" <;> simp

theorem request_nvidia_gl_env (w : World Params) :
    (request_nvidia_gl w).2.env =
      (if nullOrDiffers (getenv w.env "__GLX_VENDOR_LIBRARY_NAME") "nvidia" then
        setenv (if nullOrDiffers (getenv w.env "__NV_PRIME_RENDER_OFFLOAD") "1" then
          setenv w.env "__NV_PRIME_RENDER_OFFLOAD" "1" 1 else w.env)
          "__GLX_VENDOR_LIBRARY_NAME" "nvidia" 1
      else (if nullOrDiffers (getenv w.env "__NV_PRIME_RENDER_OFFLOAD") "1" then
          setenv w.env "__NV_PRIME_RENDER_OFFLOAD" "1" 1 else w.env)) := by
  simp only [request_nvidia_gl, World.getenv, World.emit, World.setenv]
  cases nullOrDiffers (getenv w.env "__NV_PRIME_RENDER_OFFLOAD") "1" <;>
    cases nullOrDiffers (getenv w.env "__GLX_VENDOR_LIBRARY_NAME") "nvidia" <;> simp

theorem request_nvidia_gl_trace (w : World Params) :
    (request_nvidia_gl w).2.trace =
      w.trace ++ [Event.getenv "__NV_PRIME_RENDER_OFFLOAD",
        Event.getenv "__GLX_VENDOR_LIBRARY_NAME"] ++
      (if nullOrDiffers (getenv w.env "__NV_PRIME_RENDER_OFFLOAD") "1" then
        [Event.setenv "__NV_PRIME_RENDER_OFFLOAD" "1" 1] else []) ++
      (if nullOrDiffers (getenv w.env "__GLX_VENDOR_LIBRARY_NAME") "nvidia" then
        [Event.setenv "__GLX_VENDOR_LIBRARY_NAME" "nvidia" 1] else []) := by
  simp only [request_nvidia_gl, World.getenv, World.emit, World.setenv]
  cases nullOrDiffers (getenv w.env "__NV_PRIME_RENDER_OFFLOAD") "1" <;>
    cases nullOrDiffers (getenv w.env "__GLX_VENDOR_LIBRARY_NAME") "nvidia" <;> simp

theorem request_nvidia_gl_offload (w : World Params) :
    getenv (request_nvidia_gl w).2.env "__NV_PRIME_RENDER_OFFLOAD" = some "1" := by
  rw [request_nvidia_gl_env]
  have hne : "__NV_PRIME_RENDER_OFFLOAD" ≠ "__GLX_VENDOR_LIBRARY_NAME" := by decide
  cases h1 : nullOrDiffers (getenv w.env "__NV_PRIME_RENDER_OFFLOAD") "1" <;>
    cases h2 : nullOrDiffers (getenv w.env "__GLX_VENDOR_LIBRARY_NAME") "nvidia" <;>
    simp only [if_true, if_false, Bool.false_eq_true] <;>
    first
      | exact (nullOrDiffers_eq_false_iff _ _).1 h1
      | (rw [getenv_setenv_other _ _ _ _ _ hne]; exact (nullOrDiffers_eq_false_iff _ _).1 h1)
      | exact getenv_setenv_same _ _ _ _ (by decide)
      | (rw [getenv_setenv_other _ _ _ _ _ hne]; exact getenv_setenv_same _ _ _ _ (by decide))

theorem request_nvidia_gl_vendor (w : World Params) :
    getenv (request_nvidia_gl w).2.env "__GLX_VENDOR_LIBRARY_NAME" = some "nvidia" := by
  rw [request_nvidia_gl_env]
  have hne : "__GLX_VENDOR_LIBRARY_NAME" ≠ "__NV_PRIME_RENDER_OFFLOAD" := by decide
  cases h1 : nullOrDiffers (getenv w.env "__NV_PRIME_RENDER_OFFLOAD") "1" <;>
    cases h2 : nullOrDiffers (getenv w.env "__GLX_VENDOR_LIBRARY_NAME") "nvidia" <;>
    simp only [if_true, if_false, Bool.false_eq_true] <;>
    first
      | exact (nullOrDiffers_eq_false_iff _ _).1 h2
      | (rw [getenv_setenv_other _ _ _ _ _ hne]; exact (nullOrDiffers_eq_false_iff _ _).1 h2)
      | exact getenv_setenv_same _ _ _ _ (by decide)

theorem request_nvidia_gl_other (w : World Params) (name : String)
    (h1 : name ≠ "__NV_PRIME_RENDER_OFFLOAD") (h2 : name ≠ "__GLX_VENDOR_LIBRARY_NAME") :
    getenv (request_nvidia_gl w).2.env name = getenv w.env name := by
  rw [request_nvidia_gl_env]
  split <;> split <;> simp [getenv_setenv_other _ _ _ _ _ h1, getenv_setenv_other _ _ _ _ _ h2]

/-! ## The trace of `main` on each path -/

theorem preParse_win32 (env0 : Env) :
    (preParse true env0 : World Params) = { env := env0, trace := [] } := by
  simp [preParse]

theorem preParse_env (env0 : Env) :
    (preParse false env0 : World Params).env =
      (request_nvidia_gl ({ env := env0, trace := [] } : World Params)).2.env := by
  simp [preParse, World.emit]

theorem preParse_trace (env0 : Env) :
    (preParse false env0 : World Params).trace =
      (request_nvidia_gl ({ env := env0, trace := [] } : World Params)).2.trace ++
        [Event.setAllocatorSettings "expandable_segments:True"] := by
  simp [preParse, World.emit]

theorem postInitLog_env (w : World Params) : (postInitLog w).env = w.env := by
  simp only [postInitLog, World.getenv, World.emit]
  split <;> rfl

theorem postInitLog_trace (w : World Params) :
    (postInitLog w).trace =
      w.trace ++ [Event.getenv "__NV_PRIME_RENDER_OFFLOAD",
        Event.getenv "__GLX_VENDOR_LIBRARY_NAME"] ++
      (if nonNullAndEquals (getenv w.env "__NV_PRIME_RENDER_OFFLOAD") "1" &&
          nonNullAndEquals (getenv w.env "__GLX_VENDOR_LIBRARY_NAME") "nvidia" then
        [Event.LOG_INFO offloadMessage []] else []) := by
  simp only [postInitLog, World.getenv, World.emit]
  split <;> simp

theorem main_error (win32 : Bool) (c : Collaborators Params) (argv : List String)
    (env0 envP : Env) (M : String)
    (h : c.parse_args_and_params argv.length argv (preParse win32 env0 : World Params).env
      = (Except.error M, envP)) :
    (main win32 c argv env0).ret = -1 ∧
    (main win32 c argv env0).world.env = envP ∧
    (main win32 c argv env0).world.trace =
      (preParse win32 env0 : World Params).trace ++
        [Event.parse_args_and_params argv.length argv,
         Event.LOG_ERROR "Failed to parse arguments: \x7b\x7d" [M],
         Event.println_stderr "Error: \x7b\x7d" [M]] := by
  simp [main, h, World.emit]

theorem main_ok (win32 : Bool) (c : Collaborators Params) (argv : List String)
    (env0 envP : Env) (P : Params)
    (h : c.parse_args_and_params argv.length argv (preParse win32 env0 : World Params).env
      = (Except.ok P, envP)) :
    (main win32 c argv env0).ret = c.run P envP ∧
    (main win32 c argv env0).world.env = envP ∧
    (main win32 c argv env0).world.trace =
      (preParse win32 env0 : World Params).trace ++
        [Event.parse_args_and_params argv.length argv] ++
        (if win32 then [] else
          [Event.getenv "__NV_PRIME_RENDER_OFFLOAD",
            Event.getenv "__GLX_VENDOR_LIBRARY_NAME"] ++
          (if nonNullAndEquals (getenv envP "__NV_PRIME_RENDER_OFFLOAD") "1" &&
              nonNullAndEquals (getenv envP "__GLX_VENDOR_LIBRARY_NAME") "nvidia" then
            [Event.LOG_INFO offloadMessage []] else [])) ++
        [Event.LOG_INFO "========================================" [],
         Event.LOG_INFO "LichtFeld Studio" [],
         Event.LOG_INFO "========================================" [],
         Event.run P] := by
  cases win32
  · simp [main, h, World.emit, postInitLog_env, postInitLog_trace]
  · simp [main, h, World.emit]

theorem infoLog_request_nvidia_gl (env0 : Env) :
    infoLog (request_nvidia_gl ({ env := env0, trace := [] } : World Params)).2.trace = [] := by
  rw [request_nvidia_gl_trace]
  split <;> split <;> simp [infoLog]

theorem runCalls_request_nvidia_gl (env0 : Env) :
    runCalls (request_nvidia_gl ({ env := env0, trace := [] } : World Params)).2.trace = [] := by
  rw [request_nvidia_gl_trace]
  split <;> split <;> simp [runCalls]

theorem errorLog_request_nvidia_gl (env0 : Env) :
    errorLog (request_nvidia_gl ({ env := env0, trace := [] } : World Params)).2.trace = [] := by
  rw [request_nvidia_gl_trace]
  split <;> split <;> simp [errorLog]

theorem stderrWrites_request_nvidia_gl (env0 : Env) :
    stderrWrites (request_nvidia_gl ({ env := env0, trace := [] } : World Params)).2.trace
      = [] := by
  rw [request_nvidia_gl_trace]
  split <;> split <;> simp [stderrWrites]

theorem allocatorCalls_request_nvidia_gl (env0 : Env) :
    allocatorCalls (request_nvidia_gl ({ env := env0, trace := [] } : World Params)).2.trace
      = [] := by
  rw [request_nvidia_gl_trace]
  split <;> split <;> simp [allocatorCalls]

theorem parseCalls_request_nvidia_gl (env0 : Env) :
    parseCalls (request_nvidia_gl ({ env := env0, trace := [] } : World Params)).2.trace
      = [] := by
  rw [request_nvidia_gl_trace]
  split <;> split <;> simp [parseCalls]

theorem infoLog_preParse (win32 : Bool) (env0 : Env) :
    infoLog (preParse win32 env0 : World Params).trace = [] := by
  cases win32
  · rw [preParse_trace, infoLog_append, infoLog_request_nvidia_gl]; rfl
  · rw [preParse_win32]; rfl

theorem runCalls_preParse (win32 : Bool) (env0 : Env) :
    runCalls (preParse win32 env0 : World Params).trace = [] := by
  cases win32
  · rw [preParse_trace, runCalls_append, runCalls_request_nvidia_gl]; rfl
  · rw [preParse_win32]; rfl

theorem errorLog_preParse (win32 : Bool) (env0 : Env) :
    errorLog (preParse win32 env0 : World Params).trace = [] := by
  cases win32
  · rw [preParse_trace, errorLog_append, errorLog_request_nvidia_gl]; rfl
  · rw [preParse_win32]; rfl

theorem stderrWrites_preParse (win32 : Bool) (env0 : Env) :
    stderrWrites (preParse win32 env0 : World Params).trace = [] := by
  cases win32
  · rw [preParse_trace, stderrWrites_append, stderrWrites_request_nvidia_gl]; rfl
  · rw [preParse_win32]; rfl

theorem format_banner : format "========================================" []
    = "========================================" := by decide

theorem format_title : format "LichtFeld Studio" [] = "LichtFeld Studio" := by decide

theorem main_ok_runCalls (win32 : Bool) (c : Collaborators Params) (argv : List String)
    (env0 envP : Env) (P : Params)
    (h : c.parse_args_and_params argv.length argv (preParse win32 env0 : World Params).env
      = (Except.ok P, envP)) :
    runCalls (main win32 c argv env0).world.trace = [P] := by
  obtain ⟨-, -, htrace⟩ := main_ok win32 c argv env0 envP P h
  rw [htrace]
  simp only [runCalls_append, runCalls_preParse]
  split_ifs <;> simp [runCalls]

theorem main_error_runCalls (win32 : Bool) (c : Collaborators Params) (argv : List String)
    (env0 envP : Env) (M : String)
    (h : c.parse_args_and_params argv.length argv (preParse win32 env0 : World Params).env
      = (Except.error M, envP)) :
    runCalls (main win32 c argv env0).world.trace = [] := by
  obtain ⟨-, -, htrace⟩ := main_error win32 c argv env0 envP M h
  rw [htrace, runCalls_append, runCalls_preParse]; rfl

theorem main_ok_infoLog (c : Collaborators Params) (argv : List String)
    (env0 envP : Env) (P : Params)
    (h : c.parse_args_and_params argv.length argv (preParse false env0 : World Params).env
      = (Except.ok P, envP)) :
    infoLog (main false c argv env0).world.trace =
      (if getenv envP "__NV_PRIME_RENDER_OFFLOAD" = some "1" ∧
          getenv envP "__GLX_VENDOR_LIBRARY_NAME" = some "nvidia"
        then [offloadRecord] else []) ++
      ["========================================", "LichtFeld Studio",
       "========================================"] := by
  obtain ⟨-, -, htrace⟩ := main_ok false c argv env0 envP P h
  have hcond : ((nonNullAndEquals (getenv envP "__NV_PRIME_RENDER_OFFLOAD") "1" &&
      nonNullAndEquals (getenv envP "__GLX_VENDOR_LIBRARY_NAME") "nvidia") = true) ↔
      (getenv envP "__NV_PRIME_RENDER_OFFLOAD" = some "1" ∧
        getenv envP "__GLX_VENDOR_LIBRARY_NAME" = some "nvidia") := by
    simp [nonNullAndEquals_eq_true_iff]
  rw [htrace]
  by_cases hc : (getenv envP "__NV_PRIME_RENDER_OFFLOAD" = some "1" ∧
      getenv envP "__GLX_VENDOR_LIBRARY_NAME" = some "nvidia")
  · rw [if_pos hc, hcond.2 hc]
    simp [infoLog_append, infoLog_preParse, infoLog, format_banner, format_title,
      offloadRecord]
  · rw [if_neg hc, Bool.eq_false_iff.2 (fun hb => hc (hcond.1 hb))]
    simp [infoLog_append, infoLog_preParse, infoLog, format_banner, format_title]

/-! ## The claims -/

/-- C1: when the parser succeeds with parameters `P`, `main` calls the application
controller's `run` exactly once, with `P`, and returns exactly what `run` returned. -/
theorem main_success_returns_run (win32 : Bool) (c : Collaborators Params)
    (argv : List String) (env0 envP : Env) (P : Params) (r : Int)
    (hparse : c.parse_args_and_params argv.length argv
      (preParse win32 env0 : World Params).env = (Except.ok P, envP))
    (hrun : c.run P envP = r) :
    (main win32 c argv env0).ret = r ∧
    runCalls (main win32 c argv env0).world.trace = [P] := by
  exact ⟨(main_ok win32 c argv env0 envP P hparse).1.trans hrun,
    main_ok_runCalls win32 c argv env0 envP P hparse⟩

theorem main_success_returns_run_witness :
    (stubSuccess sampleParams 7).parse_args_and_params 1 ["app"]
        (preParse false [] : World SampleParameters).env =
      (Except.ok sampleParams,
        [("__NV_PRIME_RENDER_OFFLOAD", "1"), ("__GLX_VENDOR_LIBRARY_NAME", "nvidia")]) ∧
    (main false (stubSuccess sampleParams 7) ["app"] []).ret = 7 ∧
    runCalls (main false (stubSuccess sampleParams 7) ["app"] []).world.trace
      = [sampleParams] :=
  ⟨rfl,
   main_success_returns_run false (stubSuccess sampleParams 7) ["app"] []
    [("__NV_PRIME_RENDER_OFFLOAD", "1"), ("__GLX_VENDOR_LIBRARY_NAME", "nvidia")]
    sampleParams 7 rfl rfl⟩

/-- C2: when the parser fails, `main` returns -1, never calls the application
controller's `run`, and hands no informational record to the logger. -/
theorem main_failure_returns_minus_one (win32 : Bool) (c : Collaborators Params)
    (argv : List String) (env0 envP : Env) (M : String)
    (hparse : c.parse_args_and_params argv.length argv
      (preParse win32 env0 : World Params).env = (Except.error M, envP)) :
    (main win32 c argv env0).ret = -1 ∧
    runCalls (main win32 c argv env0).world.trace = [] ∧
    infoLog (main win32 c argv env0).world.trace = [] := by
  obtain ⟨hret, -, htrace⟩ := main_error win32 c argv env0 envP M hparse
  refine ⟨hret, main_error_runCalls win32 c argv env0 envP M hparse, ?_⟩
  rw [htrace, infoLog_append, infoLog_preParse]; rfl

theorem main_failure_returns_minus_one_witness :
    (stubFailure "unknown flag").parse_args_and_params 2 ["app", "--bogus"]
        (preParse false [("__NV_PRIME_RENDER_OFFLOAD", "0")] : World SampleParameters).env =
      (Except.error "unknown flag",
        [("__NV_PRIME_RENDER_OFFLOAD", "1"), ("__GLX_VENDOR_LIBRARY_NAME", "nvidia")]) ∧
    (main false (stubFailure "unknown flag") ["app", "--bogus"]
        [("__NV_PRIME_RENDER_OFFLOAD", "0")]).ret = -1 ∧
    runCalls (main false (stubFailure "unknown flag") ["app", "--bogus"]
        [("__NV_PRIME_RENDER_OFFLOAD", "0")]).world.trace = [] ∧
    infoLog (main false (stubFailure "unknown flag") ["app", "--bogus"]
        [("__NV_PRIME_RENDER_OFFLOAD", "0")]).world.trace = [] :=
  ⟨rfl,
   main_failure_returns_minus_one false (stubFailure "unknown flag") ["app", "--bogus"]
    [("__NV_PRIME_RENDER_OFFLOAD", "0")]
    [("__NV_PRIME_RENDER_OFFLOAD", "1"), ("__GLX_VENDOR_LIBRARY_NAME", "nvidia")]
    "unknown flag" rfl⟩

/-- C3 (as amended): when the parser fails with message `M`, exactly one record goes
to the error logger, with text "Failed to parse arguments: " followed by `M`, and
exactly one write goes to the standard error stream, with text "Error: " followed by
`M` and a newline; `M` is a substring of both texts, and the write has one line
more than `M` has newline characters, so it is a single line exactly when `M`
contains none. -/
theorem main_failure_surfaces_message (win32 : Bool) (c : Collaborators Params)
    (argv : List String) (env0 envP : Env) (M : String)
    (hparse : c.parse_args_and_params argv.length argv
      (preParse win32 env0 : World Params).env = (Except.error M, envP)) :
    errorLog (main win32 c argv env0).world.trace = ["Failed to parse arguments: " ++ M] ∧
    stderrWrites (main win32 c argv env0).world.trace = ["Error: " ++ M ++ "\n"] ∧
    (∃ pre post : String, "Failed to parse arguments: " ++ M = pre ++ M ++ post) ∧
    (∃ pre post : String, "Error: " ++ M ++ "\n" = pre ++ M ++ post) ∧
    lineCount (String.join (stderrWrites (main win32 c argv env0).world.trace))
      = lineCount M + 1 := by
  obtain ⟨-, -, htrace⟩ := main_error win32 c argv env0 envP M hparse
  have herr : errorLog (main win32 c argv env0).world.trace
      = ["Failed to parse arguments: " ++ M] := by
    rw [htrace, errorLog_append, errorLog_preParse]
    simp [errorLog, format_error_record]
  have hout : stderrWrites (main win32 c argv env0).world.trace
      = ["Error: " ++ M ++ "\n"] := by
    rw [htrace, stderrWrites_append, stderrWrites_preParse]
    simp [stderrWrites, format_stderr_record]
  refine ⟨herr, hout, ⟨"Failed to parse arguments: ", "", by simp⟩,
    ⟨"Error: ", "\n", rfl⟩, ?_⟩
  rw [hout]
  simp only [String.join, List.foldl, lineCount_append]
  simp [lineCount]

theorem main_failure_surfaces_message_witness :
    (stubFailure "unknown flag").parse_args_and_params 2 ["app", "--bogus"]
        (preParse false [] : World SampleParameters).env =
      (Except.error "unknown flag",
        [("__NV_PRIME_RENDER_OFFLOAD", "1"), ("__GLX_VENDOR_LIBRARY_NAME", "nvidia")]) ∧
    errorLog (main false (stubFailure "unknown flag") ["app", "--bogus"] []).world.trace
      = ["Failed to parse arguments: unknown flag"] ∧
    stderrWrites (main false (stubFailure "unknown flag") ["app", "--bogus"] []).world.trace
      = ["Error: unknown flag\n"] ∧
    lineCount (String.join
      (stderrWrites (main false (stubFailure "unknown flag") ["app", "--bogus"] []).world.trace))
      = 1 :=
  have h := main_failure_surfaces_message false (stubFailure "unknown flag")
    ["app", "--bogus"] []
    [("__NV_PRIME_RENDER_OFFLOAD", "1"), ("__GLX_VENDOR_LIBRARY_NAME", "nvidia")]
    "unknown flag" rfl
  ⟨rfl, h.1, h.2.1, h.2.2.2.2⟩

/-- C3 (the claim as stated fails): with the two-line message "unknown flag" newline
"usage: app", the parser fails, and what `main` writes to the standard error stream
is two lines, not one. -/
theorem main_failure_message_with_newline :
    (stubFailure "unknown flag\nusage: app").parse_args_and_params 2 ["app", "--bogus"]
        (preParse false [] : World SampleParameters).env =
      (Except.error "unknown flag\nusage: app",
        [("__NV_PRIME_RENDER_OFFLOAD", "1"), ("__GLX_VENDOR_LIBRARY_NAME", "nvidia")]) ∧
    stderrWrites (main false (stubFailure "unknown flag\nusage: app")
        ["app", "--bogus"] []).world.trace = ["Error: unknown flag\nusage: app\n"] ∧
    lineCount (String.join (stderrWrites (main false (stubFailure "unknown flag\nusage: app")
        ["app", "--bogus"] []).world.trace)) = 2 ∧
    ¬ lineCount (String.join (stderrWrites (main false (stubFailure "unknown flag\nusage: app")
        ["app", "--bogus"] []).world.trace)) = 1 := by
  refine ⟨rfl, by decide, by decide, by decide⟩

/-- C4: whatever the environment holds at the start, after the selector
`request_nvidia_gl` has run `__NV_PRIME_RENDER_OFFLOAD` is "1" and
`__GLX_VENDOR_LIBRARY_NAME` is "nvidia". -/
theorem request_nvidia_gl_reaches_targets (env0 : Env) :
    getenv (request_nvidia_gl ({ env := env0, trace := [] } : World Params)).2.env
      "__NV_PRIME_RENDER_OFFLOAD" = some "1" ∧
    getenv (request_nvidia_gl ({ env := env0, trace := [] } : World Params)).2.env
      "__GLX_VENDOR_LIBRARY_NAME" = some "nvidia" :=
  ⟨request_nvidia_gl_offload _, request_nvidia_gl_vendor _⟩

/-- C5: the flag returned by the selector `request_nvidia_gl` is true exactly when
the selector changed the environment, and exactly when at least one of the two
entries was missing or different from its target at the start. -/
theorem request_nvidia_gl_changed_iff (env0 : Env) :
    ((request_nvidia_gl ({ env := env0, trace := [] } : World Params)).1 = true ↔
      (request_nvidia_gl ({ env := env0, trace := [] } : World Params)).2.env ≠ env0) ∧
    ((request_nvidia_gl ({ env := env0, trace := [] } : World Params)).1 = true ↔
      (getenv env0 "__NV_PRIME_RENDER_OFFLOAD" ≠ some "1" ∨
        getenv env0 "__GLX_VENDOR_LIBRARY_NAME" ≠ some "nvidia")) ∧
    ((request_nvidia_gl ({ env := env0, trace := [] } : World Params)).1 = true ↔
      setenvCalls (request_nvidia_gl ({ env := env0, trace := [] } : World Params)).2.trace
        ≠ []) := by
  have hflag : (request_nvidia_gl ({ env := env0, trace := [] } : World Params)).1 = true ↔
      (getenv env0 "__NV_PRIME_RENDER_OFFLOAD" ≠ some "1" ∨
        getenv env0 "__GLX_VENDOR_LIBRARY_NAME" ≠ some "nvidia") := by
    rw [request_nvidia_gl_changed]
    simp [nullOrDiffers_eq_true_iff]
  refine ⟨?_, hflag, ?_⟩
  · rw [hflag]
    constructor
    · intro h heq
      have h1 := request_nvidia_gl_offload ({ env := env0, trace := [] } : World Params)
      have h2 := request_nvidia_gl_vendor ({ env := env0, trace := [] } : World Params)
      rw [heq] at h1 h2
      rcases h with h | h
      · exact h h1
      · exact h h2
    · intro hne
      by_contra hcon
      push_neg at hcon
      apply hne
      rw [request_nvidia_gl_env]
      simp [(nullOrDiffers_eq_false_iff _ _).2 hcon.1, (nullOrDiffers_eq_false_iff _ _).2 hcon.2]
  · rw [request_nvidia_gl_changed, request_nvidia_gl_trace]
    cases nullOrDiffers (getenv env0 "__NV_PRIME_RENDER_OFFLOAD") "1" <;>
      cases nullOrDiffers (getenv env0 "__GLX_VENDOR_LIBRARY_NAME") "nvidia" <;>
      simp [setenvCalls]

/-- C6: the selector calls `setenv` on an entry only when that entry is not already
at its target; when both entries are at their targets it makes no `setenv` call and
leaves the whole environment as it was; and it never changes an entry other than
`__NV_PRIME_RENDER_OFFLOAD` and `__GLX_VENDOR_LIBRARY_NAME`. -/
theorem request_nvidia_gl_writes_only_wrong (env0 : Env) :
    (∀ call ∈ setenvCalls
        (request_nvidia_gl ({ env := env0, trace := [] } : World Params)).2.trace,
      (call = ("__NV_PRIME_RENDER_OFFLOAD", "1", 1) ∨
        call = ("__GLX_VENDOR_LIBRARY_NAME", "nvidia", 1)) ∧
      getenv env0 call.1 ≠ some call.2.1) ∧
    (getenv env0 "__NV_PRIME_RENDER_OFFLOAD" = some "1" →
      getenv env0 "__GLX_VENDOR_LIBRARY_NAME" = some "nvidia" →
      setenvCalls (request_nvidia_gl ({ env := env0, trace := [] } : World Params)).2.trace
        = [] ∧
      (request_nvidia_gl ({ env := env0, trace := [] } : World Params)).2.env = env0) ∧
    (∀ name : String, name ≠ "__NV_PRIME_RENDER_OFFLOAD" →
      name ≠ "__GLX_VENDOR_LIBRARY_NAME" →
      getenv (request_nvidia_gl ({ env := env0, trace := [] } : World Params)).2.env name
        = getenv env0 name) := by
  refine ⟨?_, ?_, ?_⟩
  · intro call hcall
    rw [request_nvidia_gl_trace] at hcall
    cases h1 : nullOrDiffers (getenv env0 "__NV_PRIME_RENDER_OFFLOAD") "1" <;>
      cases h2 : nullOrDiffers (getenv env0 "__GLX_VENDOR_LIBRARY_NAME") "nvidia" <;>
      simp [h1, h2, setenvCalls] at hcall
    · subst hcall
      exact ⟨Or.inr rfl, (nullOrDiffers_eq_true_iff _ _).1 h2⟩
    · subst hcall
      exact ⟨Or.inl rfl, (nullOrDiffers_eq_true_iff _ _).1 h1⟩
    · rcases hcall with hcall | hcall
      · subst hcall
        exact ⟨Or.inl rfl, (nullOrDiffers_eq_true_iff _ _).1 h1⟩
      · subst hcall
        exact ⟨Or.inr rfl, (nullOrDiffers_eq_true_iff _ _).1 h2⟩
  · intro h1 h2
    rw [request_nvidia_gl_trace, request_nvidia_gl_env]
    simp [(nullOrDiffers_eq_false_iff _ _).2 h1, (nullOrDiffers_eq_false_iff _ _).2 h2,
      setenvCalls]
  · intro name h1 h2
    exact request_nvidia_gl_other _ name h1 h2

theorem request_nvidia_gl_writes_only_wrong_witness :
    setenvCalls (request_nvidia_gl (⟨[("HOME", "/root"),
        ("__GLX_VENDOR_LIBRARY_NAME", "nvidia"), ("__NV_PRIME_RENDER_OFFLOAD", "1")], []⟩ :
        World SampleParameters)).2.trace = [] ∧
    (request_nvidia_gl (⟨[("HOME", "/root"),
        ("__GLX_VENDOR_LIBRARY_NAME", "nvidia"), ("__NV_PRIME_RENDER_OFFLOAD", "1")], []⟩ :
        World SampleParameters)).2.env =
      [("HOME", "/root"), ("__GLX_VENDOR_LIBRARY_NAME", "nvidia"),
        ("__NV_PRIME_RENDER_OFFLOAD", "1")] :=
  (request_nvidia_gl_writes_only_wrong [("HOME", "/root"),
    ("__GLX_VENDOR_LIBRARY_NAME", "nvidia"), ("__NV_PRIME_RENDER_OFFLOAD", "1")]).2.1
    (by decide) (by decide)

/-- C7 (the claim as stated fails): starting from an environment where
`__NV_PRIME_RENDER_OFFLOAD` is missing and `__GLX_VENDOR_LIBRARY_NAME` is already
"nvidia", the selector makes one `setenv` call, for `__NV_PRIME_RENDER_OFFLOAD`, and
none for `__GLX_VENDOR_LIBRARY_NAME`. -/
theorem request_nvidia_gl_sets_one_entry :
    getenv [("__GLX_VENDOR_LIBRARY_NAME", "nvidia")] "__NV_PRIME_RENDER_OFFLOAD" = none ∧
    setenvCalls (request_nvidia_gl (⟨[("__GLX_VENDOR_LIBRARY_NAME", "nvidia")], []⟩ :
        World SampleParameters)).2.trace
      = [("__NV_PRIME_RENDER_OFFLOAD", "1", 1)] ∧
    ¬ (("__NV_PRIME_RENDER_OFFLOAD", "1", 1) ∈
        setenvCalls (request_nvidia_gl (⟨[("__GLX_VENDOR_LIBRARY_NAME", "nvidia")], []⟩ :
          World SampleParameters)).2.trace ∧
      ("__GLX_VENDOR_LIBRARY_NAME", "nvidia", 1) ∈
        setenvCalls (request_nvidia_gl (⟨[("__GLX_VENDOR_LIBRARY_NAME", "nvidia")], []⟩ :
          World SampleParameters)).2.trace) := by
  refine ⟨by decide, by decide, by decide⟩

/-- C7 (as amended): when at least one of the two entries is missing or differs
from its target, the selector makes a `setenv` call for exactly those of the two
entries that are missing or differ (`__NV_PRIME_RENDER_OFFLOAD` with "1" first,
then `__GLX_VENDOR_LIBRARY_NAME` with "nvidia"), at least one call in all, and
afterwards both entries are at their targets. -/
theorem request_nvidia_gl_sets_wrong_entries (env0 : Env)
    (hwrong : getenv env0 "__NV_PRIME_RENDER_OFFLOAD" ≠ some "1" ∨
      getenv env0 "__GLX_VENDOR_LIBRARY_NAME" ≠ some "nvidia") :
    setenvCalls (request_nvidia_gl ({ env := env0, trace := [] } : World Params)).2.trace =
      (if getenv env0 "__NV_PRIME_RENDER_OFFLOAD" ≠ some "1" then
        [("__NV_PRIME_RENDER_OFFLOAD", "1", 1)] else []) ++
      (if getenv env0 "__GLX_VENDOR_LIBRARY_NAME" ≠ some "nvidia" then
        [("__GLX_VENDOR_LIBRARY_NAME", "nvidia", 1)] else []) ∧
    setenvCalls (request_nvidia_gl ({ env := env0, trace := [] } : World Params)).2.trace
      ≠ [] ∧
    getenv (request_nvidia_gl ({ env := env0, trace := [] } : World Params)).2.env
      "__NV_PRIME_RENDER_OFFLOAD" = some "1" ∧
    getenv (request_nvidia_gl ({ env := env0, trace := [] } : World Params)).2.env
      "__GLX_VENDOR_LIBRARY_NAME" = some "nvidia" := by
  have hcalls : setenvCalls
      (request_nvidia_gl ({ env := env0, trace := [] } : World Params)).2.trace =
      (if getenv env0 "__NV_PRIME_RENDER_OFFLOAD" ≠ some "1" then
        [("__NV_PRIME_RENDER_OFFLOAD", "1", 1)] else []) ++
      (if getenv env0 "__GLX_VENDOR_LIBRARY_NAME" ≠ some "nvidia" then
        [("__GLX_VENDOR_LIBRARY_NAME", "nvidia", 1)] else []) := by
    rw [request_nvidia_gl_trace]
    by_cases h1 : getenv env0 "__NV_PRIME_RENDER_OFFLOAD" = some "1" <;>
      by_cases h2 : getenv env0 "__GLX_VENDOR_LIBRARY_NAME" = some "nvidia"
    · simp [h1, h2, setenvCalls, (nullOrDiffers_eq_false_iff _ _).2 rfl]
    · simp [h1, h2, setenvCalls, (nullOrDiffers_eq_false_iff _ _).2 rfl,
        (nullOrDiffers_eq_true_iff _ _).2 h2]
    · simp [h1, h2, setenvCalls, (nullOrDiffers_eq_false_iff _ _).2 rfl,
        (nullOrDiffers_eq_true_iff _ _).2 h1]
    · simp [h1, h2, setenvCalls, (nullOrDiffers_eq_true_iff _ _).2 h1,
        (nullOrDiffers_eq_true_iff _ _).2 h2]
  refine ⟨hcalls, ?_, request_nvidia_gl_offload _, request_nvidia_gl_vendor _⟩
  rw [hcalls]
  rcases hwrong with h | h <;> simp [h]

theorem request_nvidia_gl_sets_wrong_entries_witness :
    setenvCalls (request_nvidia_gl (⟨[("__NV_PRIME_RENDER_OFFLOAD", "0"),
        ("__GLX_VENDOR_LIBRARY_NAME", "nvidia")], []⟩ : World SampleParameters)).2.trace
      = [("__NV_PRIME_RENDER_OFFLOAD", "1", 1)] ∧
    getenv (request_nvidia_gl (⟨[("__NV_PRIME_RENDER_OFFLOAD", "0"),
        ("__GLX_VENDOR_LIBRARY_NAME", "nvidia")], []⟩ : World SampleParameters)).2.env
      "__NV_PRIME_RENDER_OFFLOAD" = some "1" :=
  have h := @request_nvidia_gl_sets_wrong_entries SampleParameters
    [("__NV_PRIME_RENDER_OFFLOAD", "0"), ("__GLX_VENDOR_LIBRARY_NAME", "nvidia")]
    (Or.inl (by decide))
  ⟨h.1, h.2.2.1⟩

/-- C8: after a successful parse, `main` (built without `_WIN32`) hands the
render-offload informational record to the logger exactly when the environment it
reads at the check, the one the parser left behind, has `__NV_PRIME_RENDER_OFFLOAD`
equal to "1" and `__GLX_VENDOR_LIBRARY_NAME` equal to "nvidia"; the record appears
once in that case and not at all otherwise, whatever the environment was at the
start and whatever flag the selector returned. -/
theorem main_offload_record_iff (c : Collaborators Params) (argv : List String)
    (env0 envP : Env) (P : Params)
    (hparse : c.parse_args_and_params argv.length argv
      (preParse false env0 : World Params).env = (Except.ok P, envP)) :
    (offloadRecord ∈ infoLog (main false c argv env0).world.trace ↔
      (getenv envP "__NV_PRIME_RENDER_OFFLOAD" = some "1" ∧
        getenv envP "__GLX_VENDOR_LIBRARY_NAME" = some "nvidia")) ∧
    (infoLog (main false c argv env0).world.trace).count offloadRecord =
      (if getenv envP "__NV_PRIME_RENDER_OFFLOAD" = some "1" ∧
          getenv envP "__GLX_VENDOR_LIBRARY_NAME" = some "nvidia" then 1 else 0) := by
  rw [main_ok_infoLog c argv env0 envP P hparse]
  by_cases h : (getenv envP "__NV_PRIME_RENDER_OFFLOAD" = some "1" ∧
        getenv envP "__GLX_VENDOR_LIBRARY_NAME" = some "nvidia")
  · rw [if_pos h, if_pos h]
    exact ⟨⟨fun _ => h, fun _ => by decide⟩, by decide⟩
  · rw [if_neg h, if_neg h]
    refine ⟨⟨fun hm => absurd hm (by decide), fun hc => absurd hc h⟩, by decide⟩

theorem main_offload_record_iff_witness :
    (offloadRecord ∈ infoLog (main false (stubSuccess sampleParams 0) ["app"]
        [("__NV_PRIME_RENDER_OFFLOAD", "1"),
          ("__GLX_VENDOR_LIBRARY_NAME", "nvidia")]).world.trace ↔
      (getenv [("__NV_PRIME_RENDER_OFFLOAD", "1"), ("__GLX_VENDOR_LIBRARY_NAME", "nvidia")]
          "__NV_PRIME_RENDER_OFFLOAD" = some "1" ∧
        getenv [("__NV_PRIME_RENDER_OFFLOAD", "1"), ("__GLX_VENDOR_LIBRARY_NAME", "nvidia")]
          "__GLX_VENDOR_LIBRARY_NAME" = some "nvidia")) ∧
    (infoLog (main false (stubReplacingEnv sampleParams [] 0) ["app"]
        []).world.trace).count offloadRecord =
      (if getenv [] "__NV_PRIME_RENDER_OFFLOAD" = some "1" ∧
          getenv [] "__GLX_VENDOR_LIBRARY_NAME" = some "nvidia" then 1 else 0) :=
  ⟨(main_offload_record_iff (stubSuccess sampleParams 0) ["app"]
      [("__NV_PRIME_RENDER_OFFLOAD", "1"), ("__GLX_VENDOR_LIBRARY_NAME", "nvidia")]
      [("__NV_PRIME_RENDER_OFFLOAD", "1"), ("__GLX_VENDOR_LIBRARY_NAME", "nvidia")]
      sampleParams rfl).1,
   (main_offload_record_iff (stubReplacingEnv sampleParams [] 0) ["app"] [] []
      sampleParams rfl).2⟩

theorem main_win32_no_offload_record (c : Collaborators Params) (argv : List String)
    (env0 : Env) : offloadRecord ∉ infoLog (main true c argv env0).world.trace := by
  rcases hres : c.parse_args_and_params argv.length argv
    (preParse true env0 : World Params).env with ⟨res, envP⟩
  cases res with
  | error M =>
    obtain ⟨-, -, htrace⟩ := main_error true c argv env0 envP M hres
    rw [htrace, infoLog_append, infoLog_preParse]
    simp [infoLog]
  | ok P =>
    obtain ⟨-, -, htrace⟩ := main_ok true c argv env0 envP P hres
    rw [htrace]
    simp only [infoLog_append, infoLog_preParse, if_true, infoLog, format_banner,
      format_title, List.nil_append, List.append_nil]
    decide

/-- C9: built without `_WIN32`, `main` calls `setAllocatorSettings` exactly once,
with "expandable_segments:True", right after the calls of the environment selector
and right before its single call of the parser, whatever the environment and
whatever the parser returns; built with `_WIN32`, it never makes the call. -/
theorem main_allocator_call (c : Collaborators Params) (argv : List String) (env0 : Env) :
    (∃ rest : List (Event Params),
      (main false c argv env0).world.trace =
        (request_nvidia_gl ({ env := env0, trace := [] } : World Params)).2.trace ++
          Event.setAllocatorSettings "expandable_segments:True" ::
          Event.parse_args_and_params argv.length argv :: rest) ∧
    allocatorCalls (main false c argv env0).world.trace = ["expandable_segments:True"] ∧
    parseCalls (main false c argv env0).world.trace = [(argv.length, argv)] ∧
    allocatorCalls (main true c argv env0).world.trace = [] := by
  have hsel := @allocatorCalls_request_nvidia_gl Params env0
  have hsel2 := @parseCalls_request_nvidia_gl Params env0
  refine ⟨?_, ?_, ?_, ?_⟩
  · rcases hres : c.parse_args_and_params argv.length argv
      (preParse false env0 : World Params).env with ⟨res, envP⟩
    cases res with
    | error M =>
      obtain ⟨-, -, htrace⟩ := main_error false c argv env0 envP M hres
      apply Exists.intro
      rw [htrace, preParse_trace]
      simp only [List.append_assoc, List.singleton_append, List.cons_append, List.nil_append]
      rfl
    | ok P =>
      obtain ⟨-, -, htrace⟩ := main_ok false c argv env0 envP P hres
      apply Exists.intro
      rw [htrace, preParse_trace]
      simp only [List.append_assoc, List.singleton_append, List.cons_append, List.nil_append]
      rfl
  · rcases hres : c.parse_args_and_params argv.length argv
      (preParse false env0 : World Params).env with ⟨res, envP⟩
    cases res with
    | error M =>
      obtain ⟨-, -, htrace⟩ := main_error false c argv env0 envP M hres
      rw [htrace, preParse_trace]
      simp [allocatorCalls_append, hsel, allocatorCalls]
    | ok P =>
      obtain ⟨-, -, htrace⟩ := main_ok false c argv env0 envP P hres
      rw [htrace, preParse_trace]
      split_ifs <;> simp [allocatorCalls_append, hsel, allocatorCalls]
  · rcases hres : c.parse_args_and_params argv.length argv
      (preParse false env0 : World Params).env with ⟨res, envP⟩
    cases res with
    | error M =>
      obtain ⟨-, -, htrace⟩ := main_error false c argv env0 envP M hres
      rw [htrace, preParse_trace]
      simp [parseCalls_append, hsel2, parseCalls]
    | ok P =>
      obtain ⟨-, -, htrace⟩ := main_ok false c argv env0 envP P hres
      rw [htrace, preParse_trace]
      split_ifs <;> simp [parseCalls_append, hsel2, parseCalls]
  · rcases hres : c.parse_args_and_params argv.length argv
      (preParse true env0 : World Params).env with ⟨res, envP⟩
    cases res with
    | error M =>
      obtain ⟨-, -, htrace⟩ := main_error true c argv env0 envP M hres
      rw [htrace, preParse_win32]
      simp [allocatorCalls]
    | ok P =>
      obtain ⟨-, -, htrace⟩ := main_ok true c argv env0 envP P hres
      rw [htrace, preParse_win32]
      simp [allocatorCalls]

/-- C10: built without `_WIN32`, with a parser that leaves the two entries as the
selector set them, a successful parse is followed by the render-offload
informational record whatever the environment was at the start (the record is
handed to the logger exactly once, right after the two reads of the check); and for
two starting environments with the same parser outcome and the same controller
result, `main` returns the same value and makes the same calls of `run`. -/
theorem main_offload_always_and_env_independent (c : Collaborators Params)
    (argv : List String) (env_a env_b : Env)
    (hkeep : getenv (c.parse_args_and_params argv.length argv
          (preParse false env_a : World Params).env).2 "__NV_PRIME_RENDER_OFFLOAD"
        = getenv (preParse false env_a : World Params).env "__NV_PRIME_RENDER_OFFLOAD" ∧
      getenv (c.parse_args_and_params argv.length argv
          (preParse false env_a : World Params).env).2 "__GLX_VENDOR_LIBRARY_NAME"
        = getenv (preParse false env_a : World Params).env "__GLX_VENDOR_LIBRARY_NAME")
    (hsame : (c.parse_args_and_params argv.length argv
          (preParse false env_a : World Params).env).1
        = (c.parse_args_and_params argv.length argv
          (preParse false env_b : World Params).env).1)
    (hrun : ∀ P : Params,
      c.run P (c.parse_args_and_params argv.length argv
          (preParse false env_a : World Params).env).2
        = c.run P (c.parse_args_and_params argv.length argv
          (preParse false env_b : World Params).env).2) :
    (∀ P : Params,
      (c.parse_args_and_params argv.length argv
          (preParse false env_a : World Params).env).1 = Except.ok P →
      (infoLog (main false c argv env_a).world.trace).count offloadRecord = 1 ∧
      (main false c argv env_a).world.trace =
        (preParse false env_a : World Params).trace ++
          [Event.parse_args_and_params argv.length argv,
           Event.getenv "__NV_PRIME_RENDER_OFFLOAD",
           Event.getenv "__GLX_VENDOR_LIBRARY_NAME",
           Event.LOG_INFO offloadMessage [],
           Event.LOG_INFO "========================================" [],
           Event.LOG_INFO "LichtFeld Studio" [],
           Event.LOG_INFO "========================================" [],
           Event.run P]) ∧
    (main false c argv env_a).ret = (main false c argv env_b).ret ∧
    runCalls (main false c argv env_a).world.trace
      = runCalls (main false c argv env_b).world.trace := by
  rcases hres_a : c.parse_args_and_params argv.length argv
    (preParse false env_a : World Params).env with ⟨res_a, envP_a⟩
  rcases hres_b : c.parse_args_and_params argv.length argv
    (preParse false env_b : World Params).env with ⟨res_b, envP_b⟩
  rw [hres_a] at hkeep hsame hrun
  rw [hres_b] at hsame hrun
  simp only at hkeep hsame hrun
  subst hsame
  refine ⟨?_, ?_⟩
  · intro P hP
    subst hP
    have hoff : getenv envP_a "__NV_PRIME_RENDER_OFFLOAD" = some "1" := by
      rw [hkeep.1, preParse_env]; exact request_nvidia_gl_offload _
    have hven : getenv envP_a "__GLX_VENDOR_LIBRARY_NAME" = some "nvidia" := by
      rw [hkeep.2, preParse_env]; exact request_nvidia_gl_vendor _
    obtain ⟨-, -, htrace⟩ := main_ok false c argv env_a envP_a P hres_a
    refine ⟨?_, ?_⟩
    · rw [main_ok_infoLog c argv env_a envP_a P hres_a, if_pos ⟨hoff, hven⟩]
      decide
    · rw [htrace]
      simp [hoff, hven, (nonNullAndEquals_eq_true_iff _ _).2 rfl]
  · cases res_a with
    | error M =>
      obtain ⟨hret_a, -, htrace_a⟩ := main_error false c argv env_a envP_a M hres_a
      obtain ⟨hret_b, -, htrace_b⟩ := main_error false c argv env_b envP_b M hres_b
      refine ⟨by rw [hret_a, hret_b], ?_⟩
      rw [main_error_runCalls false c argv env_a envP_a M hres_a,
        main_error_runCalls false c argv env_b envP_b M hres_b]
    | ok P =>
      refine ⟨?_, ?_⟩
      · rw [(main_ok false c argv env_a envP_a P hres_a).1,
          (main_ok false c argv env_b envP_b P hres_b).1]
        exact hrun P
      · rw [main_ok_runCalls false c argv env_a envP_a P hres_a,
          main_ok_runCalls false c argv env_b envP_b P hres_b]



theorem main_offload_always_and_env_independent_witness :
    (infoLog (main false (stubSuccess sampleParams 0) ["app"] []).world.trace).count
      offloadRecord = 1 ∧
    (main false (stubSuccess sampleParams 0) ["app"] []).ret =
      (main false (stubSuccess sampleParams 0) ["app"]
        [("__NV_PRIME_RENDER_OFFLOAD", "0"), ("__GLX_VENDOR_LIBRARY_NAME", "mesa")]).ret ∧
    runCalls (main false (stubSuccess sampleParams 0) ["app"] []).world.trace =
      runCalls (main false (stubSuccess sampleParams 0) ["app"]
        [("__NV_PRIME_RENDER_OFFLOAD", "0"), ("__GLX_VENDOR_LIBRARY_NAME", "mesa")]).world.trace :=
  have h := main_offload_always_and_env_independent (stubSuccess sampleParams 0) ["app"] []
    [("__NV_PRIME_RENDER_OFFLOAD", "0"), ("__GLX_VENDOR_LIBRARY_NAME", "mesa")]
    ⟨rfl, rfl⟩ rfl (fun _ => rfl)
  ⟨(h.1 sampleParams rfl).1, h.2⟩

end LichtFeld
